import Mathlib

/-!
Verification development for a minimal Slack Incoming-Webhook client
(single Go source file `slack.go`).

The embedding models:
* the data model (`Message`, `Attachment`, `AttachmentField`) with the Go
  zero values as defaults;
* the `encoding/json` marshalling of those structs, field by field in
  declaration order, honouring the `omitempty` tags, as a JSON object
  (association list of key/value pairs) plus a byte-level renderer that
  matches the compact, HTML-escaping output of `json.Encoder`;
* the `encoding/json` unmarshalling back into the structs (absent key =
  zero value, wrong type = error);
* `Client.Send` as a function from the client, the optional message and
  the transport (the `http.Client` POST operation) to an outcome record
  that carries the returned error value, the request handed to the
  transport (if any), a trace of how the response body stream was
  handled, and the final values of the client and message (to state
  frame conditions).
-/

namespace Slack

/-- A JSON value, as produced by the Go `encoding/json` marshaller for the
types of this package: objects keep their fields in emission order. -/
inductive Json where
  | str (s : String)
  | num (n : Int)
  | bool (b : Bool)
  | arr (elems : List Json)
  | obj (fields : List (String × Json))
deriving Repr

/-- `AttachmentField` from `slack.go`: field defaults are the Go zero values. -/
structure AttachmentField where
  Title : String := ""
  Value : String := ""
  Short : Bool := false
deriving Repr, DecidableEq

/-- `Attachment` from `slack.go`. -/
structure Attachment where
  Fallback : String := ""
  Color : String := ""
  Pretext : String := ""
  AuthorName : String := ""
  AuthorLink : String := ""
  AuthorIcon : String := ""
  Title : String := ""
  TitleLink : String := ""
  Text : String := ""
  Fields : List AttachmentField := []
  ImageURL : String := ""
  ThumbURL : String := ""
  Footer : String := ""
  FooterIcon : String := ""
  Timestamp : Int := 0
  MrkdwnIn : List String := []
deriving Repr, DecidableEq

/-- `Message` from `slack.go`. -/
structure Message where
  Username : String := ""
  Channel : String := ""
  IconEmoji : String := ""
  IconURL : String := ""
  Text : String := ""
  Attachments : List Attachment := []
deriving Repr, DecidableEq

/-! ### JSON marshalling (Go `encoding/json`, struct tags with `omitempty`) -/

/-- Lower-case hexadecimal digit, as used by the Go marshaller in
`\u00xx` escapes. -/
def hexDigitChar (n : Nat) : Char :=
  if n < 10 then Char.ofNat (48 + n) else Char.ofNat (87 + n)

/-- Four lower-case hex digits of a code point below 0x10000. -/
def uEscape (n : Nat) : String :=
  String.mk [hexDigitChar (n / 4096 % 16), hexDigitChar (n / 256 % 16),
    hexDigitChar (n / 16 % 16), hexDigitChar (n % 16)]

/-- Escaping of one character inside a JSON string, following the Go
marshaller with its default HTML escaping: quote and backslash get a
backslash escape, newline, carriage return and tab get their short
escapes, other control characters, the HTML characters and the Unicode
line separators get `\uXXXX`, everything else is emitted verbatim. -/
def escapeChar (c : Char) : String :=
  if c = '"' then "\\\""
  else if c = '\\' then "\\\\"
  else if c = '\n' then "\\n"
  else if c = '\r' then "\\r"
  else if c = '\t' then "\\t"
  else if c.toNat < 32 then "\\u" ++ uEscape c.toNat
  else if c = '<' ∨ c = '>' ∨ c = '&' then "\\u" ++ uEscape c.toNat
  else if c.toNat = 8232 ∨ c.toNat = 8233 then "\\u" ++ uEscape c.toNat
  else String.mk [c]

/-- A JSON string literal: quoted and escaped. -/
def quoteString (s : String) : String :=
  "\"" ++ String.join (s.data.map escapeChar) ++ "\""

mutual

/-- Compact rendering of a JSON value, matching the byte output of the Go
marshaller (no whitespace, object fields in emission order). -/
def renderJson : Json → String
  | .str s => quoteString s
  | .num n => toString n
  | .bool b => cond b "true" "false"
  | .arr xs => "[" ++ renderArr xs ++ "]"
  | .obj kvs => "\x7b" ++ renderObj kvs ++ "\x7d"

/-- Comma-separated rendering of the elements of a JSON array. -/
def renderArr : List Json → String
  | [] => ""
  | [x] => renderJson x
  | x :: y :: xs => renderJson x ++ "," ++ renderArr (y :: xs)

/-- Comma-separated rendering of the fields of a JSON object. -/
def renderObj : List (String × Json) → String
  | [] => ""
  | [(k, v)] => quoteString k ++ ":" ++ renderJson v
  | (k, v) :: p :: kvs => quoteString k ++ ":" ++ renderJson v ++ "," ++ renderObj (p :: kvs)

end

/-- One struct field of the marshalled object: with `omitempty`, the
field is dropped entirely when its value is the zero value of its type
(the `omit` flag is that emptiness test). -/
def jfield (k : String) (isZero : Bool) (v : Json) : List (String × Json) :=
  if isZero then [] else [(k, v)]

/-- Marshalling of `AttachmentField` (tags `title`, `value`, `short`,
each `omitempty`), fields in declaration order. -/
def AttachmentField.encode (f : AttachmentField) : List (String × Json) :=
  jfield "title" (f.Title == "") (.str f.Title) ++
  jfield "value" (f.Value == "") (.str f.Value) ++
  jfield "short" (f.Short == false) (.bool f.Short)

/-- Marshalling of `Attachment`, fields in declaration order with their
`omitempty` tags from `slack.go`. -/
def Attachment.encode (a : Attachment) : List (String × Json) :=
  jfield "fallback" (a.Fallback == "") (.str a.Fallback) ++
  jfield "color" (a.Color == "") (.str a.Color) ++
  jfield "pretext" (a.Pretext == "") (.str a.Pretext) ++
  jfield "author_name" (a.AuthorName == "") (.str a.AuthorName) ++
  jfield "author_link" (a.AuthorLink == "") (.str a.AuthorLink) ++
  jfield "author_icon" (a.AuthorIcon == "") (.str a.AuthorIcon) ++
  jfield "title" (a.Title == "") (.str a.Title) ++
  jfield "title_link" (a.TitleLink == "") (.str a.TitleLink) ++
  jfield "text" (a.Text == "") (.str a.Text) ++
  jfield "fields" (a.Fields == []) (.arr (a.Fields.map fun f => .obj f.encode)) ++
  jfield "image_url" (a.ImageURL == "") (.str a.ImageURL) ++
  jfield "thumb_url" (a.ThumbURL == "") (.str a.ThumbURL) ++
  jfield "footer" (a.Footer == "") (.str a.Footer) ++
  jfield "footer_icon" (a.FooterIcon == "") (.str a.FooterIcon) ++
  jfield "ts" (a.Timestamp == 0) (.num a.Timestamp) ++
  jfield "mrkdwn_in" (a.MrkdwnIn == []) (.arr (a.MrkdwnIn.map Json.str))

/-- Marshalling of `Message`, fields in declaration order with their
`omitempty` tags from `slack.go`. -/
def Message.encode (m : Message) : List (String × Json) :=
  jfield "username" (m.Username == "") (.str m.Username) ++
  jfield "channel" (m.Channel == "") (.str m.Channel) ++
  jfield "icon_emoji" (m.IconEmoji == "") (.str m.IconEmoji) ++
  jfield "icon_url" (m.IconURL == "") (.str m.IconURL) ++
  jfield "text" (m.Text == "") (.str m.Text) ++
  jfield "attachments" (m.Attachments == []) (.arr (m.Attachments.map fun a => .obj a.encode))

/-- The bytes `json.Marshal` produces for a message. -/
def Message.encodeJSON (m : Message) : String :=
  renderJson (.obj m.encode)

/-- The bytes `json.NewEncoder(&b).Encode(message)` leaves in the buffer
that becomes the POST body: the marshalled value followed by a newline
(the encoder terminates every value with a new line). -/
def Message.encodeBody (m : Message) : String :=
  m.encodeJSON ++ "\n"

/-! ### JSON unmarshalling (Go `json.Unmarshal` into the tagged structs) -/

/-- First binding of a key in a JSON object (the marshaller never emits
a key twice). -/
def olookup : List (String × Json) → String → Option Json
  | [], _ => none
  | (k, v) :: rest, key => if key == k then some v else olookup rest key

/-- Unmarshalling of a string-typed struct field: an absent key leaves
the zero value, a string value is taken, any other value is a type
error. -/
def getStr (o : List (String × Json)) (k : String) : Option String :=
  match olookup o k with
  | none => some ""
  | some (.str s) => some s
  | some _ => none

/-- Unmarshalling of a bool-typed struct field. -/
def getBool (o : List (String × Json)) (k : String) : Option Bool :=
  match olookup o k with
  | none => some false
  | some (.bool b) => some b
  | some _ => none

/-- Unmarshalling of an integer-typed struct field. -/
def getInt (o : List (String × Json)) (k : String) : Option Int :=
  match olookup o k with
  | none => some 0
  | some (.num n) => some n
  | some _ => none

/-- Unmarshalling of a `[]string` struct field. -/
def getStrArr (o : List (String × Json)) (k : String) : Option (List String) :=
  match olookup o k with
  | none => some []
  | some (.arr xs) => xs.mapM fun j => match j with | .str s => some s | _ => none
  | some _ => none

/-- Unmarshalling of an `AttachmentField` from a JSON value: it must be
an object. -/
def AttachmentField.decode (j : Json) : Option AttachmentField :=
  match j with
  | .obj o => do
    let t ← getStr o "title"
    let v ← getStr o "value"
    let s ← getBool o "short"
    pure ⟨t, v, s⟩
  | _ => none

/-- Unmarshalling of an `Attachment` from a JSON value. -/
def Attachment.decode (j : Json) : Option Attachment :=
  match j with
  | .obj o => do
    let fb ← getStr o "fallback"
    let co ← getStr o "color"
    let pr ← getStr o "pretext"
    let an ← getStr o "author_name"
    let al ← getStr o "author_link"
    let ai ← getStr o "author_icon"
    let ti ← getStr o "title"
    let tl ← getStr o "title_link"
    let tx ← getStr o "text"
    let fs ← match olookup o "fields" with
      | none => some []
      | some (.arr xs) => xs.mapM AttachmentField.decode
      | some _ => none
    let iu ← getStr o "image_url"
    let tu ← getStr o "thumb_url"
    let fo ← getStr o "footer"
    let fi ← getStr o "footer_icon"
    let ts ← getInt o "ts"
    let mi ← getStrArr o "mrkdwn_in"
    pure ⟨fb, co, pr, an, al, ai, ti, tl, tx, fs, iu, tu, fo, fi, ts, mi⟩
  | _ => none

/-- Unmarshalling of a `Message` from a JSON value. -/
def Message.decode (j : Json) : Option Message :=
  match j with
  | .obj o => do
    let un ← getStr o "username"
    let ch ← getStr o "channel"
    let ie ← getStr o "icon_emoji"
    let iu ← getStr o "icon_url"
    let tx ← getStr o "text"
    let ats ← match olookup o "attachments" with
      | none => some []
      | some (.arr xs) => xs.mapM Attachment.decode
      | some _ => none
    pure ⟨un, ch, ie, iu, tx, ats⟩
  | _ => none

/-! ### The HTTP collaborator and `Client.Send` -/

/-- The data handed to `http.Client.Post`: URL, content type and the
bytes of the request body. -/
structure Request where
  url : String
  contentType : String
  body : String
deriving Repr, DecidableEq

/-- What the transport produces: the numeric status code
(`resp.StatusCode`, a Go `int`), the textual status line
(`resp.Status`, e.g. `404 Not Found`), and the result of reading the
body stream to its end (`ioutil.ReadAll`): either the body bytes or a
read error. -/
structure Response where
  StatusCode : Int
  Status : String
  bodyRead : Except String String
deriving Repr

/-- The injected HTTP transport: a POST operation that either fails
before producing a response (network error, carrying the description of
the underlying error) or produces a `Response`. -/
def Transport : Type := Request → Except String Response

/-- The distinct error values `Client.Send` can return, each carrying
the data interpolated into its `fmt.Errorf` format string.  The
`encodingFailure` branch of the Go code is unreachable here: marshalling
of these field types cannot fail, so the model has no constructor for
it. -/
inductive SendError where
  | invalidInput
  | transportFailure (err : String)
  | remoteRejected (status : String) (body : String)
  | remoteRejectedUnreadable (status : String) (readErr : String)
deriving Repr, DecidableEq

/-- The human-readable message of each returned error, exactly the
`fmt.Errorf` format strings of `slack.go`. -/
def SendError.message : SendError → String
  | .invalidInput => "message is nil"
  | .transportFailure err => "Could not send the request: " ++ err
  | .remoteRejected status body => "Slack API returned " ++ status ++ ": " ++ body
  | .remoteRejectedUnreadable status readErr =>
      "Slack API returned " ++ status ++ " (could not read body: " ++ readErr ++ ")"

/-- How the response body stream was handled before `Send` returned:
whether `ioutil.ReadAll` was invoked on it, whether it was read through
to the end of the stream, and whether it was closed (the deferred
`resp.Body.Close()`). -/
structure BodyTrace where
  readAttempted : Bool
  fullyDrained : Bool
  closed : Bool
deriving Repr, DecidableEq

/-- `Client` from `slack.go`: the webhook URL and the optional HTTP
client (`nil` means `http.DefaultClient`). -/
structure Client where
  WebhookURL : String := ""
  HTTPClient : Option Transport := none

/-- Everything observable about one call of `Client.Send`: the returned
error value, the request handed to the transport (`none` when the
transport was never invoked), the body-stream trace (`none` when no
response was produced), and the final values of the receiver and the
message argument. -/
structure SendOutcome where
  result : Except SendError Unit
  request : Option Request
  trace : Option BodyTrace
  finalClient : Client
  finalMessage : Option Message

/-- `Client.Send` from `slack.go`, line by line: nil check, marshalling
into the buffer, choice of the HTTP client (field or default), POST,
deferred close of the body, and the status check `>= 300` with the
best-effort read of the error body.  `defaultTransport` stands for
`http.DefaultClient`. -/
def Client.Send (c : Client) (message : Option Message) (defaultTransport : Transport) :
    SendOutcome :=
  match message with
  | none => ⟨.error .invalidInput, none, none, c, none⟩
  | some m =>
    let body := m.encodeBody
    let hc := c.HTTPClient.getD defaultTransport
    let req : Request := ⟨c.WebhookURL, "application/json", body⟩
    match hc req with
    | .error e => ⟨.error (.transportFailure e), some req, none, c, some m⟩
    | .ok resp =>
      if 300 ≤ resp.StatusCode then
        match resp.bodyRead with
        | .error re =>
            ⟨.error (.remoteRejectedUnreadable resp.Status re), some req,
              some ⟨true, false, true⟩, c, some m⟩
        | .ok bs =>
            ⟨.error (.remoteRejected resp.Status bs), some req,
              some ⟨true, true, true⟩, c, some m⟩
      else
        ⟨.ok (), some req, some ⟨false, false, true⟩, c, some m⟩

/-- The package-level convenience function `Send` from `slack.go`: it
builds `&Client{WebhookURL: WebhookURL}` and calls its `Send` method. -/
def Send (WebhookURL : String) (message : Option Message) (defaultTransport : Transport) :
    SendOutcome :=
  Client.Send ⟨WebhookURL, none⟩ message defaultTransport

/-! ### Auxiliary notions and concrete sample values -/

/-- Whether the marshalled object carries the key `k` at all. -/
def hasKey (o : List (String × Json)) (k : String) : Bool :=
  (olookup o k).isSome

/-- `sub` occurs contiguously inside `hay`. -/
def containsStr (hay sub : String) : Prop :=
  ∃ l r, hay = l ++ sub ++ r

/-- A plain sample message, `Message{Text: "hello"}`. -/
def helloMessage : Message :=
  ⟨"", "", "", "", "hello", []⟩

/-- A transport stub answering `200 OK` with a readable body. -/
def t200 : Transport :=
  fun _ => .ok ⟨200, "200 OK", .ok "ok"⟩

/-- A transport stub answering `404 Not Found` with body `no_service`. -/
def t404 : Transport :=
  fun _ => .ok ⟨404, "404 Not Found", .ok "no_service"⟩

/-- A transport stub answering `100 Continue` (a status below the 2xx
range) with a readable empty body. -/
def t100 : Transport :=
  fun _ => .ok ⟨100, "100 Continue", .ok ""⟩

/-- A transport stub failing before any response is produced. -/
def tFail : Transport :=
  fun _ => .error "dial tcp: connection refused"

/-- A transport stub answering `500` with a body that cannot be read. -/
def tUnreadable : Transport :=
  fun _ => .ok ⟨500, "500 Internal Server Error", .error "unexpected EOF"⟩

/-! ### Helper lemmas about marshalled objects -/

/-- Looking a key up across one marshalled field followed by the rest of
the object. -/
theorem olookup_jfield_append (key k : String) (z : Bool) (v : Json)
    (rest : List (String × Json)) :
    olookup (jfield k z v ++ rest) key =
      if key == k && !z then some v else olookup rest key := by
  cases z <;> cases h : key == k <;> simp_all [jfield, olookup]

/-- Looking a key up in the last marshalled field of an object. -/
theorem olookup_jfield (key k : String) (z : Bool) (v : Json) :
    olookup (jfield k z v) key =
      if key == k && !z then some v else none := by
  cases z <;> cases h : key == k <;> simp_all [jfield, olookup]

/-! ### C2: `omitempty` omits exactly the zero values -/

/-- C2: in the JSON encoding of `Message`, `Attachment` and
`AttachmentField` values, a field key is present exactly when the field
does not hold the zero value of its type; a `Message` with every field
empty encodes to the empty JSON object, and the `short` key is omitted
for `short=false` and present for `short=true`. -/
theorem encode_omitempty_iff_zero :
    (∀ m : Message,
      (hasKey m.encode "username" = true ↔ m.Username ≠ "") ∧
      (hasKey m.encode "channel" = true ↔ m.Channel ≠ "") ∧
      (hasKey m.encode "icon_emoji" = true ↔ m.IconEmoji ≠ "") ∧
      (hasKey m.encode "icon_url" = true ↔ m.IconURL ≠ "") ∧
      (hasKey m.encode "text" = true ↔ m.Text ≠ "") ∧
      (hasKey m.encode "attachments" = true ↔ m.Attachments ≠ [])) ∧
    (∀ a : Attachment,
      (hasKey a.encode "fallback" = true ↔ a.Fallback ≠ "") ∧
      (hasKey a.encode "color" = true ↔ a.Color ≠ "") ∧
      (hasKey a.encode "pretext" = true ↔ a.Pretext ≠ "") ∧
      (hasKey a.encode "author_name" = true ↔ a.AuthorName ≠ "") ∧
      (hasKey a.encode "author_link" = true ↔ a.AuthorLink ≠ "") ∧
      (hasKey a.encode "author_icon" = true ↔ a.AuthorIcon ≠ "") ∧
      (hasKey a.encode "title" = true ↔ a.Title ≠ "") ∧
      (hasKey a.encode "title_link" = true ↔ a.TitleLink ≠ "") ∧
      (hasKey a.encode "text" = true ↔ a.Text ≠ "") ∧
      (hasKey a.encode "fields" = true ↔ a.Fields ≠ []) ∧
      (hasKey a.encode "image_url" = true ↔ a.ImageURL ≠ "") ∧
      (hasKey a.encode "thumb_url" = true ↔ a.ThumbURL ≠ "") ∧
      (hasKey a.encode "footer" = true ↔ a.Footer ≠ "") ∧
      (hasKey a.encode "footer_icon" = true ↔ a.FooterIcon ≠ "") ∧
      (hasKey a.encode "ts" = true ↔ a.Timestamp ≠ 0) ∧
      (hasKey a.encode "mrkdwn_in" = true ↔ a.MrkdwnIn ≠ [])) ∧
    (∀ f : AttachmentField,
      (hasKey f.encode "title" = true ↔ f.Title ≠ "") ∧
      (hasKey f.encode "value" = true ↔ f.Value ≠ "") ∧
      (hasKey f.encode "short" = true ↔ f.Short ≠ false)) ∧
    Message.encodeJSON ⟨"", "", "", "", "", []⟩ = "\x7b\x7d" := by
  refine ⟨fun m => ?_, fun a => ?_, fun f => ?_, ?_⟩
  · refine ⟨?_, ?_, ?_, ?_, ?_, ?_⟩ <;>
      simp [Message.encode, hasKey, olookup_jfield_append, olookup_jfield]
  · refine ⟨?_, ?_, ?_, ?_, ?_, ?_, ?_, ?_, ?_, ?_, ?_, ?_, ?_, ?_, ?_, ?_⟩ <;>
      simp [Attachment.encode, hasKey, olookup_jfield_append, olookup_jfield]
  · refine ⟨?_, ?_, ?_⟩ <;>
      simp [AttachmentField.encode, hasKey, olookup_jfield_append, olookup_jfield]
  · rfl

/-! ### C7: encode/decode round trip for attachment-free messages -/

/-- C7: marshalling a message without attachments and unmarshalling the
resulting JSON object yields the original message back (on every field,
in particular on every field that was not omitted). -/
theorem encode_decode_roundtrip_no_attachments (m : Message) (h : m.Attachments = []) :
    Message.decode (.obj m.encode) = some m := by
  obtain ⟨u, c, ie, iu, t, ats⟩ := m
  simp only at h
  subst h
  cases h1 : u == "" <;> cases h2 : c == "" <;> cases h3 : ie == "" <;>
    cases h4 : iu == "" <;> cases h5 : t == "" <;>
    simp_all [Message.encode, jfield, Message.decode, getStr, olookup]

/-- Witness for C7 at a concrete attachment-free message. -/
theorem encode_decode_roundtrip_no_attachments_witness :
    (⟨"bot", "", "", "", "hi", []⟩ : Message).Attachments = [] ∧
      Message.decode (.obj (Message.encode ⟨"bot", "", "", "", "hi", []⟩)) =
        some ⟨"bot", "", "", "", "hi", []⟩ :=
  ⟨rfl, encode_decode_roundtrip_no_attachments ⟨"bot", "", "", "", "hi", []⟩ rfl⟩

/-! ### Helper lemma: the request `Send` hands to the transport -/

/-- Whenever the message is present, the transport receives the webhook
URL, the JSON content type, and the encoded body — on every branch of
`Send`. -/
theorem send_request_eq (c : Client) (m : Message) (d : Transport) :
    (Client.Send c (some m) d).request =
      some ⟨c.WebhookURL, "application/json", m.encodeBody⟩ := by
  simp only [Client.Send]
  rcases hd : c.HTTPClient.getD d ⟨c.WebhookURL, "application/json", m.encodeBody⟩ with
    e | resp <;> simp [hd]
  by_cases h3 : 300 ≤ resp.StatusCode
  · cases hb : resp.bodyRead <;> simp [h3, hb]
  · simp [h3]

/-! ### C1: which statuses count as success -/

/-- C1 counterexample: a `100 Continue` response has its status outside
the claimed success range `[200,300)`, yet `Send` returns no error (the
code only checks `StatusCode >= 300`). -/
theorem send_success_outside_2xx_cex :
    (Client.Send ⟨"u", none⟩ (some helloMessage) t100).result = .ok () ∧
      ¬((200 : Int) ≤ 100 ∧ (100 : Int) < 300) :=
  ⟨rfl, by decide⟩

/-- C1 (amended): when the transport produces a response, `Send`
succeeds exactly when the status code is below 300; any status of 300
or above makes `Send` return an error. -/
theorem send_success_iff_status_lt_300 (c : Client) (m : Message) (d : Transport)
    (resp : Response)
    (ht : c.HTTPClient.getD d ⟨c.WebhookURL, "application/json", m.encodeBody⟩ =
      Except.ok resp) :
    (Client.Send c (some m) d).result = .ok () ↔ resp.StatusCode < 300 := by
  simp only [Client.Send, ht]
  by_cases h3 : 300 ≤ resp.StatusCode
  · cases hb : resp.bodyRead <;> simp [h3, hb]
  · simp [h3]
    omega

/-- Witness for the amended C1 at a concrete `404` transport. -/
theorem send_success_iff_status_lt_300_witness :
    ((Client.Send ⟨"u", none⟩ (some helloMessage) t404).result = .ok () ↔
      (404 : Int) < 300) :=
  send_success_iff_status_lt_300 ⟨"u", none⟩ helloMessage t404
    ⟨404, "404 Not Found", .ok "no_service"⟩ rfl

/-! ### C3: the exact bytes handed to the transport -/

/-- C3 counterexample: for `Message{Text: "hello"}` the transport does
not receive exactly the claimed sixteen bytes: the JSON encoder
terminates the value with a newline, so the body carries one extra
byte. -/
theorem send_body_hello_cex :
    (Client.Send ⟨"u", none⟩ (some ⟨"", "", "", "", "hello", []⟩) t200).request =
      some ⟨"u", "application/json", "\x7b\"text\":\"hello\"\x7d\n"⟩ ∧
      ("\x7b\"text\":\"hello\"\x7d\n" : String) ≠ "\x7b\"text\":\"hello\"\x7d" :=
  ⟨rfl, by decide⟩

/-- C3 (amended): for every webhook URL and every transport, sending
`Message{Text: "hello"}` hands the transport a body that is exactly the
claimed bytes followed by a single terminating newline. -/
theorem send_body_hello (url : String) (d : Transport) :
    (Client.Send ⟨url, none⟩ (some ⟨"", "", "", "", "hello", []⟩) d).request =
      some ⟨url, "application/json", "\x7b\"text\":\"hello\"\x7d\n"⟩ := by
  rw [send_request_eq]
  rfl

/-! ### C4: nil message is rejected before any call -/

/-- C4: sending a nil message returns the invalid-input error (message
`message is nil`) and the transport is never invoked (no request is
produced). -/
theorem send_nil_message_invalid_input (c : Client) (d : Transport) :
    (Client.Send c none d).result = .error .invalidInput ∧
      (Client.Send c none d).request = none ∧
      SendError.invalidInput.message = "message is nil" :=
  ⟨rfl, rfl, rfl⟩

/-! ### C5: non-success responses are reported with status and body -/

/-- C5: on a response whose status code is not in the success range,
`Send` returns the remote-rejection error; its message carries the
textual status and the body text when the body is readable, and the
status plus a note that the body could not be read otherwise. -/
theorem send_remote_rejected_reports_status_and_body
    (c : Client) (m : Message) (d : Transport) (resp : Response)
    (ht : c.HTTPClient.getD d ⟨c.WebhookURL, "application/json", m.encodeBody⟩ =
      Except.ok resp)
    (h3 : 300 ≤ resp.StatusCode) :
    (∀ bs, resp.bodyRead = .ok bs →
      (Client.Send c (some m) d).result = .error (.remoteRejected resp.Status bs) ∧
      (SendError.remoteRejected resp.Status bs).message =
        "Slack API returned " ++ resp.Status ++ ": " ++ bs ∧
      containsStr (SendError.remoteRejected resp.Status bs).message resp.Status ∧
      containsStr (SendError.remoteRejected resp.Status bs).message bs ∧
      (∀ s, containsStr resp.Status s →
        containsStr (SendError.remoteRejected resp.Status bs).message s)) ∧
    (∀ re, resp.bodyRead = .error re →
      (Client.Send c (some m) d).result =
        .error (.remoteRejectedUnreadable resp.Status re) ∧
      (SendError.remoteRejectedUnreadable resp.Status re).message =
        "Slack API returned " ++ resp.Status ++ " (could not read body: " ++ re ++ ")" ∧
      containsStr (SendError.remoteRejectedUnreadable resp.Status re).message resp.Status ∧
      containsStr (SendError.remoteRejectedUnreadable resp.Status re).message
        " (could not read body: ") := by
  constructor
  · intro bs hb
    refine ⟨?_, rfl, ⟨"Slack API returned ", ": " ++ bs, ?_⟩,
      ⟨"Slack API returned " ++ resp.Status ++ ": ", "", ?_⟩, ?_⟩
    · simp [Client.Send, ht, h3, hb]
    · simp [SendError.message, String.append_assoc]
    · simp [SendError.message, String.append_assoc]
    · rintro s ⟨l, r, hs⟩
      exact ⟨"Slack API returned " ++ l, r ++ ": " ++ bs,
        by simp [SendError.message, hs, String.append_assoc]⟩
  · intro re hb
    refine ⟨?_, rfl, ⟨"Slack API returned ", " (could not read body: " ++ re ++ ")", ?_⟩,
      ⟨"Slack API returned " ++ resp.Status, re ++ ")", ?_⟩⟩
    · simp [Client.Send, ht, h3, hb]
    · simp [SendError.message, String.append_assoc]
    · simp [SendError.message, String.append_assoc]

/-- Witness for C5: a concrete `404 Not Found` response with body
`no_service` yields an error whose message contains `404` and the body
text. -/
theorem send_remote_rejected_witness :
    (Client.Send ⟨"u", none⟩ (some helloMessage) t404).result =
      .error (.remoteRejected "404 Not Found" "no_service") ∧
      containsStr (SendError.remoteRejected "404 Not Found" "no_service").message "404" ∧
      containsStr (SendError.remoteRejected "404 Not Found" "no_service").message
        "no_service" := by
  have h := (send_remote_rejected_reports_status_and_body ⟨"u", none⟩ helloMessage t404
    ⟨404, "404 Not Found", .ok "no_service"⟩ rfl (by decide)).1 "no_service" rfl
  exact ⟨h.1, h.2.2.2.2 "404" ⟨"", " Not Found", by decide⟩, h.2.2.2.1⟩

/-! ### C6: transport failures are wrapped -/

/-- C6: when the transport fails before producing a response, `Send`
returns the transport-failure error whose message wraps the description
of the underlying transport error. -/
theorem send_transport_failure_wraps_error (c : Client) (m : Message) (d : Transport)
    (e : String)
    (ht : c.HTTPClient.getD d ⟨c.WebhookURL, "application/json", m.encodeBody⟩ =
      Except.error e) :
    (Client.Send c (some m) d).result = .error (.transportFailure e) ∧
      (SendError.transportFailure e).message = "Could not send the request: " ++ e ∧
      containsStr (SendError.transportFailure e).message e := by
  refine ⟨?_, rfl, ⟨"Could not send the request: ", "", ?_⟩⟩
  · simp [Client.Send, ht]
  · simp [SendError.message]

/-- Witness for C6 at a concrete failing transport. -/
theorem send_transport_failure_witness :
    (Client.Send ⟨"u", none⟩ (some helloMessage) tFail).result =
      .error (.transportFailure "dial tcp: connection refused") ∧
      containsStr (SendError.transportFailure "dial tcp: connection refused").message
        "dial tcp: connection refused" := by
  have h := send_transport_failure_wraps_error ⟨"u", none⟩ helloMessage tFail
    "dial tcp: connection refused" rfl
  exact ⟨h.1, h.2.2⟩

/-! ### C8: the free function versus a transient client -/

/-- C8: the package-level `Send` behaves as constructing a transient
client from the URL and calling its `Send` method; in particular its
result, its request and its body trace coincide with those of a client
that carries the default transport explicitly. -/
theorem send_function_eq_client_send (url : String) (m : Option Message) (d : Transport) :
    Send url m d = Client.Send ⟨url, none⟩ m d ∧
      (Send url m d).result = (Client.Send ⟨url, some d⟩ m d).result ∧
      (Send url m d).request = (Client.Send ⟨url, some d⟩ m d).request ∧
      (Send url m d).trace = (Client.Send ⟨url, some d⟩ m d).trace := by
  refine ⟨rfl, ?_⟩
  cases m with
  | none => exact ⟨rfl, rfl, rfl⟩
  | some m =>
    simp only [Send, Client.Send, Option.getD]
    rcases hd : d ⟨url, "application/json", m.encodeBody⟩ with e | resp <;> simp [hd]
    by_cases h3 : 300 ≤ resp.StatusCode
    · cases hb : resp.bodyRead <;> simp [h3, hb]
    · simp [h3]

/-! ### C9: handling of the response body stream -/

/-- C9: on the success path the response body stream is closed but it
is NOT drained (`ioutil.ReadAll` runs only on the non-success branch),
contradicting the resource-cleanup obligation of the specification. -/
theorem send_success_body_not_drained :
    (Client.Send ⟨"u", none⟩ (some helloMessage) t200).result = .ok () ∧
      (Client.Send ⟨"u", none⟩ (some helloMessage) t200).trace =
        some ⟨false, false, true⟩ :=
  ⟨rfl, rfl⟩

/-! ### C10: `Send` mutates neither the client nor the message -/

/-- C10: on every path, `Send` leaves the receiver (webhook URL and
HTTP client) and the message argument unchanged. -/
theorem send_frame_client_message_unchanged (c : Client) (m : Option Message)
    (d : Transport) :
    (Client.Send c m d).finalClient = c ∧ (Client.Send c m d).finalMessage = m := by
  cases m with
  | none => exact ⟨rfl, rfl⟩
  | some m =>
    simp only [Client.Send]
    rcases hd : c.HTTPClient.getD d ⟨c.WebhookURL, "application/json", m.encodeBody⟩ with
      e | resp <;> simp [hd]
    by_cases h3 : 300 ≤ resp.StatusCode
    · cases hb : resp.bodyRead <;> simp [h3, hb]
    · simp [h3]

end Slack
